import Mathlib

/-
Verification development for the price-watch / competitor-price scripts.

The Python sources are shallowly embedded here:
  * strings are `List Char`; prices are exact rationals (`ℚ`) standing for the
    decimal values the scripts manipulate (the spec's data model is decimal);
  * CSV rows / dicts are `Dict := String → Option (List Char)`;
  * fallible parsing returns `Option ℚ`; code paths that can raise a Python
    exception return `Except (List Char) _`.

Each definition is translated from a named function of the repository; the
file comment above each one records the source file and function.
-/

set_option maxRecDepth 4000

/-! ### Character and string helpers (Python `str` fragment) -/

/-- Python whitespace test, ASCII fragment of `str.strip` / `\s`
(space, tab, newline, carriage return, vertical tab, form feed). -/
def isPyWS (c : Char) : Bool :=
  let n := c.toNat
  n == 32 || n == 9 || n == 10 || n == 13 || n == 11 || n == 12

/-- Python `str.strip()`: drop leading and trailing whitespace. -/
def stripC (s : List Char) : List Char :=
  ((s.dropWhile isPyWS).reverse.dropWhile isPyWS).reverse

/-- Python `str.lower()`, ASCII fragment (the scripts lower-case brand /
title / MPN text that is ASCII). -/
def lowerList (s : List Char) : List Char :=
  s.map Char.toLower

/-- Python substring test `needle in hay` on strings. -/
def isSubList (needle hay : List Char) : Bool :=
  match hay with
  | [] => needle.isEmpty
  | _ :: t => needle.isPrefixOf hay || isSubList needle t

/-- Value of a digit string read in base 10 (used by the numeric parsers). -/
def digitsToNat (cs : List Char) : ℕ :=
  cs.foldl (fun a c => 10 * a + (c.toNat - 48)) 0

/-- Split a list at the first occurrence of `c`, if any. -/
def splitFirst (c : Char) : List Char → Option (List Char × List Char)
  | [] => none
  | x :: xs =>
    if x = c then some ([], xs)
    else (splitFirst c xs).map (fun p => (x :: p.1, p.2))

/-- Unsigned decimal literal: digits with at most one dot, at least one digit
(`"12"`, `"12."`, `".5"`, `"12.5"`); anything else is a parse failure. -/
def pyFloatCore (cs : List Char) : Option ℚ :=
  match splitFirst '.' cs with
  | none =>
    if !cs.isEmpty && cs.all (·.isDigit) then some ((digitsToNat cs : ℚ)) else none
  | some (a, b) =>
    if (!a.isEmpty || !b.isEmpty) && a.all (·.isDigit) && b.all (·.isDigit) then
      some ((digitsToNat a : ℚ) + (digitsToNat b : ℚ) / (10 : ℚ) ^ b.length)
    else none

/-- Python `float(s)` on a string, restricted to the plain decimal forms the
scripts feed it (optional sign, digits, optional dot); scientific notation,
`inf`/`nan` and digit-group underscores are outside the modelled fragment.
A failed parse models the caught `ValueError`, giving `none`. -/
def pyFloat (s : List Char) : Option ℚ :=
  match stripC s with
  | '-' :: r => (pyFloatCore r).map (fun q => -q)
  | '+' :: r => pyFloatCore r
  | r => pyFloatCore r

/-- Fragment of `decimal.Decimal(s)` followed by `float`: the same plain
decimal forms as `pyFloat`; in particular `Decimal` rejects comma characters,
exactly as this parser does. -/
def pyDecimal (s : List Char) : Option ℚ :=
  pyFloat s

/-! ### Python round / fixed-point formatting -/

/-- Python `round` to an integer: round half to even (banker's rounding).
The scripts apply it to 2-decimal price differences. -/
def pyRound (q : ℚ) : ℤ :=
  let f := ⌊q⌋
  let r := q - (f : ℚ)
  if r < 1 / 2 then f
  else if 1 / 2 < r then f + 1
  else if f % 2 = 0 then f else f + 1

/-- Python `round(x, 2)`. -/
def pyRound2 (q : ℚ) : ℚ :=
  (pyRound (q * 100) : ℚ) / 100

/-- Python f-string `f"{x:.2f}"`: round to 2 decimals (half to even) and
render with exactly two fractional digits.  (Python renders `-0.004` as
`"-0.00"`; this model renders it `"0.00"` — no claim depends on the sign of
a zero.) -/
def formatQ2 (x : ℚ) : List Char :=
  let n := pyRound (x * 100)
  let a := n.natAbs
  (if n < 0 then ['-'] else [])
    ++ (toString (a / 100)).toList
    ++ ['.']
    ++ (if a % 100 < 10 then '0' :: (toString (a % 100)).toList
        else (toString (a % 100)).toList)

/-! ### Money / text normalizer -/

/-- A loosely typed Python value as it reaches the price parsers:
`None`, a number (`int`/`float`), or a string. -/
inductive PyVal where
  | vnone : PyVal
  | vnum : ℚ → PyVal
  | vstr : List Char → PyVal
deriving DecidableEq

/-- From `competitor_price_via_serpapi.py`, `norm_price` (lines 58-60):
`float(str(p).replace("$","").replace(",","").strip())` under
`try/except → None`.  `str(None) = "None"` never parses, so the `None`
input yields `none`; `str` of a float round-trips through `float`, so a
numeric input yields its own value. -/
def norm_price : PyVal → Option ℚ
  | .vnone => none
  | .vnum q => some q
  | .vstr s => pyFloat (stripC ((s.filter (· ≠ '$')).filter (· ≠ ',')))

/-- From `competitor_price_scrape.py`, `money_to_float` (lines 96-109):
`None → None`; numbers pass through; otherwise keep only `[0-9.,-]`,
drop commas only when the string has a comma AND no dot, then parse with
`Decimal` under `try/except → None`. -/
def money_to_float : PyVal → Option ℚ
  | .vnone => none
  | .vnum q => some q
  | .vstr v =>
    let s := (stripC v).filter (fun c => c.isDigit || c = '.' || c = ',' || c = '-')
    let s := if s.contains ',' && !s.contains '.' then s.filter (· ≠ ',') else s
    pyDecimal s

/-- Leading-number scanner of `shopping_immersive_match.py`'s
`price_to_float`: take digits, allowing a single dot, stopping at the first
other character. -/
def leadingNumAux : List Char → Bool → List Char
  | [], _ => []
  | c :: r, dotSeen =>
    if c.isDigit then c :: leadingNumAux r dotSeen
    else if c = '.' && !dotSeen then c :: leadingNumAux r true
    else []

/-- From `shopping_immersive_match.py`, `price_to_float` (lines 104-126):
`None`/`""` → `None`; numbers pass through; otherwise remove `$` and commas,
strip, take the leading number, `float` it under `try/except → None`. -/
def price_to_float : PyVal → Option ℚ
  | .vnone => none
  | .vstr [] => none
  | .vnum q => some q
  | .vstr v =>
    let s := stripC ((v.filter (· ≠ '$')).filter (· ≠ ','))
    let num := leadingNumAux s false
    if num.isEmpty then none else pyFloat num

/-- From `competitor_price_via_serpapi.py`, `normalize_mpn` (lines 71-73):
`re.sub(r"[\s\.\-_/]", "", m).upper()` (the identical function also appears
in `competitor_price_via_serpapi_webscrape.py`, lines 42-44).  The character
class is whitespace, dot, hyphen, underscore, slash. -/
def isMpnStrip (c : Char) : Bool :=
  let n := c.toNat
  -- whitespace codes, then '.' 46, '-' 45, '_' 95, '/' 47
  n == 32 || n == 9 || n == 10 || n == 13 || n == 11 || n == 12 ||
  n == 46 || n == 45 || n == 95 || n == 47

/-- The MPN normalizer itself: strip the characters above, upper-case
(ASCII fragment of `str.upper`, which is all the scripts' MPNs use). -/
def normalize_mpn (m : List Char) : List Char :=
  (m.filter (fun c => !isMpnStrip c)).map Char.toUpper

/-! ### CSV rows as dictionaries -/

/-- A CSV row / JSON record: a partial map from column name to cell text. -/
def Dict : Type := String → Option (List Char)

/-- Python `row.get(k) or ""`. -/
def dget (d : Dict) (k : String) : List Char :=
  (d k).getD []

/-- Python `row.get(k1) or row.get(k2) or ""` (first truthy value wins). -/
def dgetOr (d : Dict) (k1 k2 : String) : List Char :=
  match d k1 with
  | some v => if v.isEmpty then (d k2).getD [] else v
  | none => (d k2).getD []

/-- Functional update `r[k] = v` on a row copy. -/
def dset (d : Dict) (k : String) (v : List Char) : Dict :=
  fun k' => if k' = k then some v else d k'

/-! ### Candidate matcher (`competitor_price_via_serpapi.py`) -/

/-- The four search variants of an MPN, lower-cased, from `title_matches`:
as-is, space-stripped, hyphen-stripped, fully normalized (the Python code
holds them in a set; only `any` over them is ever used, so a list is an
equivalent carrier). -/
def mpnVariantsLower (mpn : List Char) : List (List Char) :=
  [lowerList mpn, lowerList (mpn.filter (· ≠ ' ')),
   lowerList (mpn.filter (· ≠ '-')), lowerList (normalize_mpn mpn)]

/-- The keyword stoplist of `title_matches` (and of `title_ok` in
`competitor_price_via_serpapi_webscrape.py`, which is identical). -/
def stopKw : List (List Char) :=
  ["rear", "front", "tubeless", "disc", "bike", "bikes", "wheel", "wheels",
   "tire", "tires", "black", "white", "mens", "women", "womens", "the",
   "and", "with"].map String.toList

/-- Lower-case-alphanumeric test for `re.findall(r"[a-z0-9]+", pname)`. -/
def isLowerAlnum (c : Char) : Bool :=
  let n := c.toNat
  (97 ≤ n && n ≤ 122) || (48 ≤ n && n ≤ 57)

/-- Model of `re.findall(r"[a-z0-9]+", s)`: the maximal runs of `[a-z0-9]` characters. -/
def alnumRunsAux : List Char → List Char → List (List Char)
  | [], cur => if cur.isEmpty then [] else [cur.reverse]
  | c :: r, cur =>
    if isLowerAlnum c then alnumRunsAux r (c :: cur)
    else if cur.isEmpty then alnumRunsAux r []
    else cur.reverse :: alnumRunsAux r []

/-- Maximal `[a-z0-9]` runs of a string. -/
def alnumRuns (s : List Char) : List (List Char) :=
  alnumRunsAux s []

/-- The first three significant product-name keywords: tokenize, drop the
stoplist, then take three (`tokens[:3]` after the filter, as in the code). -/
def sigKeywords (pname : List Char) : List (List Char) :=
  ((alnumRuns pname).filter (fun x => !stopKw.contains x)).take 3

/-- The row's brand as the gate reads it:
`(row.get("Brand") or "").strip().lower()`. -/
def gate_brand (d : Dict) : List Char :=
  lowerList (stripC (dget d "Brand"))

/-- The row's MPN as the gate reads it:
`(row.get("MPN") or row.get("PartNumber") or "").strip()`. -/
def gate_mpn (d : Dict) : List Char :=
  stripC (dgetOr d "MPN" "PartNumber")

/-- The row's product name as the gate reads it:
`(row.get("Product_Name") or "").strip().lower()`. -/
def gate_pname (d : Dict) : List Char :=
  lowerList (stripC (dget d "Product_Name"))

/-- The `has_brand` flag of `title_matches` / `title_ok`: brand non-empty
and a substring of the lower-cased title. -/
def has_brand_tok (d : Dict) (title : List Char) : Bool :=
  !(gate_brand d).isEmpty && isSubList (gate_brand d) (lowerList title)

/-- The `has_mpn` flag of `title_matches` / `title_ok`: MPN set and some
non-empty lower-cased variant is a substring of the title. -/
def has_mpn_tok (d : Dict) (title : List Char) : Bool :=
  !(gate_mpn d).isEmpty &&
    (mpnVariantsLower (gate_mpn d)).any
      (fun v => !v.isEmpty && isSubList v (lowerList title))

/-- The `has_kw` flag of `title_matches`: product name set and some of its
first three significant keywords is a substring of the title. -/
def has_kw_tok (d : Dict) (title : List Char) : Bool :=
  !(gate_pname d).isEmpty &&
    (sigKeywords (gate_pname d)).any (fun x => isSubList x (lowerList title))

/-- How many of the first three significant keywords appear in the title
(the spec's "at least 2 of the first 3" quantity). -/
def kwHitCount (d : Dict) (title : List Char) : ℕ :=
  ((sigKeywords (gate_pname d)).filter
    (fun x => isSubList x (lowerList title))).length

/-- From `competitor_price_via_serpapi.py`, `title_matches` (lines 113-138):
the identity gate over an offer title.  Requires brand + (MPN variant or a
product-name keyword), or an MPN variant alone when the brand is absent. -/
def title_matches (d : Dict) (title : List Char) : Bool :=
  (has_brand_tok d title && (has_mpn_tok d title || has_kw_tok d title))
    || (has_mpn_tok d title && (gate_brand d).isEmpty)

/-- From `competitor_price_via_serpapi_webscrape.py`, `title_ok`
(lines 178-198): the same gate written as an if-chain
(brand+mpn; mpn alone without brand; brand+keyword; otherwise reject). -/
def title_ok (d : Dict) (title : List Char) : Bool :=
  if has_brand_tok d title && has_mpn_tok d title then true
  else if has_mpn_tok d title && (gate_brand d).isEmpty then true
  else if has_brand_tok d title && !(gate_pname d).isEmpty then
    (sigKeywords (gate_pname d)).any (fun x => isSubList x (lowerList title))
  else false

/-- Constant `BIG_TICKET_THRESHOLD = 300.0` of both serpapi variants. -/
def BIG_TICKET_THRESHOLD : ℚ := 300

/-- Constant `MIN_FRACTION_OF_MY_PRICE = 0.50` of both serpapi variants. -/
def MIN_FRACTION_OF_MY_PRICE : ℚ := 1 / 2

/-- From `competitor_price_via_serpapi.py`, `reasonable_price`
(lines 107-111): a candidate price passes unless the row's own price is
known, at least the big-ticket threshold, and the candidate is below half
of it; a missing candidate price always fails. -/
def reasonable_price (d : Dict) (price : Option ℚ) : Bool :=
  let myp := norm_price (.vstr (dgetOr d "My_Price" "Price"))
  match price with
  | none => false
  | some p =>
    match myp with
    | none => true
    | some m =>
      if m < BIG_TICKET_THRESHOLD then true
      else decide (p ≥ m * MIN_FRACTION_OF_MY_PRICE)

/-! ### Search hits, domains, best candidate -/

/-- One search hit as built by `extract_hits`: link, title, seller and an
already-extracted optional price. -/
structure Hit where
  link : List Char
  title : List Char
  seller : List Char
  price : Option ℚ
deriving DecidableEq

/-- Model of `urlparse(url).netloc.lower()`: the text between the first
`//` and the following delimiter, lower-cased; a URL with no `//` has an
empty netloc.  This is what `host` in
`competitor_price_via_serpapi_webscrape.py` (lines 51-53) computes — that
file does import `urlparse`. -/
def afterSlashSlash : List Char → Option (List Char)
  | [] => none
  | '/' :: '/' :: r => some r
  | _ :: r => afterSlashSlash r

/-- The lower-cased netloc of a URL (the working `urlparse` fragment). -/
def urlparse_netloc (u : List Char) : List Char :=
  match afterSlashSlash u with
  | none => []
  | some r => lowerList (r.takeWhile (fun c => c ≠ '/' && c ≠ '?' && c ≠ '#'))

/-- From `competitor_price_via_serpapi.py`, `domain_of` (lines 67-69):
`try: return urlparse(url).netloc.lower() except Exception: return ""`.
That file imports only `quote_plus` from `urllib.parse` (line 25), so
`urlparse` is an unbound name: the call raises `NameError`, the bare
`except Exception` swallows it, and the function returns the empty string
for EVERY input. -/
def domain_of (_ : List Char) : List Char :=
  []

/-- Constant `ALLOWED_DOMAINS` of `competitor_price_via_serpapi.py` (lines 37-40). -/
def ALLOWED_DOMAINS : List (List Char) :=
  ["backcountry.com", "www.backcountry.com", "sportsbasement.com",
   "www.sportsbasement.com", "shop.sportsbasement.com"].map String.toList

/-- From `host_allowed` (lines 140-142): strict merchant-host membership.
Because `domain_of` always returns the empty string in this file and the
empty string is not an allowed domain, this gate is constantly false. -/
def host_allowed (link : List Char) : Bool :=
  ALLOWED_DOMAINS.contains (domain_of link)

/-- The candidate filter of `best_valid_hit` (lines 144-154): host allowed,
title gate, price plausibility. -/
def valid_candidate (d : Dict) (h : Hit) : Bool :=
  host_allowed h.link && title_matches d h.title && reasonable_price d h.price

/-- The min-price scan of `best_valid_hit` (lines 162-167).  Python starts
from `best_price = inf`; the accumulator `none` plays that role, and the
strict `<` keeps the earliest hit on ties, as in the code. -/
def bvhLoop : List Hit → Option (Hit × ℚ) → Option (Hit × ℚ)
  | [], best => best
  | h :: rest, best =>
    match h.price with
    | none => bvhLoop rest best
    | some p =>
      match best with
      | none => bvhLoop rest (some (h, p))
      | some (bh, bp) =>
        if p < bp then bvhLoop rest (some (h, p)) else bvhLoop rest (some (bh, bp))

/-- From `competitor_price_via_serpapi.py`, `best_valid_hit`
(lines 144-168): filter the hits through the gates, return the cheapest. -/
def best_valid_hit (d : Dict) (hits : List Hit) : Option Hit :=
  (bvhLoop (hits.filter (valid_candidate d)) none).map Prod.fst

/-! ### Query builder and tier loop (`try_queries`, lines 170-217) -/

/-- From `site_filter_clause()` (lines 100-105). -/
def site_filter_clause : List Char :=
  "site:backcountry.com OR site:sportsbasement.com OR site:shop.sportsbasement.com".toList

/-- Wrap a term the way every tier does: `f"\"{term}\" ({site_filter_clause()})"`. -/
def quotedQuery (term : List Char) : List Char :=
  '"' :: term ++ '"' :: ' ' :: '(' :: site_filter_clause ++ [')']

/-- The raw MPN variant list of tiers 2 and 3:
`[mpn, mpn.replace(" ",""), mpn.replace("-",""), normalize_mpn(mpn)]`. -/
def mpnVariantsRaw (mpn : List Char) : List (List Char) :=
  [mpn, mpn.filter (· ≠ ' '), mpn.filter (· ≠ '-'), normalize_mpn mpn]

/-- The per-tier dedup loop: strip each variant, skip empties and
previously seen values (the `seen` set of the code). -/
def dedupStrip (vs : List (List Char)) : List (List Char) :=
  vs.foldl
    (fun acc v =>
      let v := stripC v
      if v.isEmpty || acc.contains v then acc else acc ++ [v]) []

/-- Regex `\w` test, ASCII fragment: letters, digits, underscore. -/
def isWordChar (c : Char) : Bool :=
  c.isAlphanum || c = '_'

/-- Case-insensitive literal match at the head of a string (the regex runs
with `flags=re.I`; the literals below are stored lower-case).  Returns the
unconsumed rest on success. -/
def matchLit : List Char → List Char → Option (List Char)
  | [], rest => some rest
  | _, [] => none
  | l :: lt, c :: ct => if Char.toLower c = l then matchLit lt ct else none

/-- One alternative of the tier-4 regex: match the literal, then require
the trailing `\b` (next character absent or a non-word character). -/
def matchStopLit (lit s : List Char) : Option (List Char) :=
  (matchLit lit s).bind (fun r =>
    match r with
    | [] => some []
    | c :: _ => if isWordChar c then none else some r)

/-- The `700x\d+\w*` alternative: literal `700x`, one or more digits, then
greedily the remaining word characters (after which the trailing `\b`
holds automatically).  The separate `700x\d+` alternative of the source
regex is subsumed by this one (it matches exactly when this does, and this
one comes first). -/
def match700x (s : List Char) : Option (List Char) :=
  (matchLit "700x".toList s).bind (fun r =>
    let ds := r.takeWhile (fun c => c.isDigit)
    if ds.isEmpty then none
    else some ((r.drop ds.length).dropWhile isWordChar))

/-- First successful match among a list of attempts (regex alternation
preference: leftmost alternative wins). -/
def firstSome : List (Option (List Char)) → Option (List Char)
  | [] => none
  | some r :: _ => some r
  | none :: t => firstSome t

/-- The tier-4 alternation
`black|white|tubeless|disc|rear|front|700x\d+\w*|700x\d+|700c|men's|womens|women|mens|bike|bicycle|wheels?|tires?`
tried left to right at one position (Python `re` prefers the first
alternative whose match, including the trailing `\b`, succeeds; `wheels?`
and `tires?` backtrack from the `s` form to the bare form, and the
subsumed `700x\d+` alternative is covered by `match700x`).  `men's` is
spelled with an apostrophe in the source. -/
def tryStopAlts (s : List Char) : Option (List Char) :=
  firstSome
    [matchStopLit "black".toList s, matchStopLit "white".toList s,
     matchStopLit "tubeless".toList s, matchStopLit "disc".toList s,
     matchStopLit "rear".toList s, matchStopLit "front".toList s,
     match700x s, matchStopLit "700c".toList s,
     matchStopLit ("men".toList ++ Char.ofNat 39 :: "s".toList) s,
     matchStopLit "womens".toList s, matchStopLit "women".toList s,
     matchStopLit "mens".toList s, matchStopLit "bike".toList s,
     matchStopLit "bicycle".toList s, matchStopLit "wheels".toList s,
     matchStopLit "wheel".toList s, matchStopLit "tires".toList s,
     matchStopLit "tire".toList s]

/-- The `re.sub` scan over the name: at every position where the leading
`\b` holds (previous char non-word — every alternative starts with a word
char), try the alternation; a match is replaced by one space and scanning
resumes after it (the char before the resume point is then the matched
text's final char, a word char).  Each match consumes at least one
character, so the string's length bounds the number of steps; the fuel is
initialized to that length and never runs out. -/
def stopScanFuel : ℕ → List Char → Bool → List Char
  | 0, s, _ => s
  | _ + 1, [], _ => []
  | fuel + 1, c :: rest, prevWord =>
    if !prevWord then
      match tryStopAlts (c :: rest) with
      | some r2 => ' ' :: stopScanFuel fuel r2 true
      | none => c :: stopScanFuel fuel rest (isWordChar c)
    else c :: stopScanFuel fuel rest (isWordChar c)

/-- The word deletion of tier 4's cleaning regex. -/
def stopScan (s : List Char) : List Char :=
  stopScanFuel s.length s false

/-- Whitespace tokenizer for the product name. -/
def splitWSAux : List Char → List Char → List (List Char)
  | [], cur => if cur.isEmpty then [] else [cur.reverse]
  | c :: r, cur =>
    if isPyWS c then
      if cur.isEmpty then splitWSAux r [] else cur.reverse :: splitWSAux r []
    else splitWSAux r (c :: cur)

/-- Join tokens with single spaces (`re.sub(r"\s+", " ", kw).strip()`). -/
def joinSpace : List (List Char) → List Char
  | [] => []
  | [t] => t
  | t :: r => t ++ ' ' :: joinSpace r

/-- Tier 4's cleaned product name: the `\b`-delimited stop words deleted
by the regex scan, then `re.sub(r"\s+", " ", kw).strip()` — whitespace
collapsed to single spaces and the ends trimmed. -/
def clean_pname (pname : List Char) : List Char :=
  joinSpace (splitWSAux (stopScan pname) [])

/-- The ordered `(tier, query)` list that `try_queries` walks: GTIN, then
Brand+MPN over the deduplicated variants, then MPN alone over the same
variants, then Brand+cleaned-Name; each tier only if its fields are set. -/
def tq_queries (d : Dict) : List (String × List Char) :=
  let gtin := stripC (dgetOr d "GTIN" "Barcode")
  let mpn := stripC (dgetOr d "MPN" "PartNumber")
  let brand := stripC (dget d "Brand")
  let pname := stripC (dget d "Product_Name")
  (if !gtin.isEmpty then [("GTIN", quotedQuery gtin)] else [])
  ++ (if !brand.isEmpty && !mpn.isEmpty then
        (dedupStrip (mpnVariantsRaw mpn)).map
          (fun v => ("Brand+MPN", quotedQuery (brand ++ ' ' :: v)))
      else [])
  ++ (if !mpn.isEmpty then
        (dedupStrip (mpnVariantsRaw mpn)).map (fun v => ("MPN", quotedQuery v))
      else [])
  ++ (if !brand.isEmpty && !pname.isEmpty then
        let kw := clean_pname pname
        if kw.isEmpty then [] else [("Brand+Name", quotedQuery (brand ++ ' ' :: kw))]
      else [])

/-- The GTIN-tier query itself (first element of the list when GTIN is set). -/
def gtin_query (d : Dict) : List Char :=
  quotedQuery (stripC (dgetOr d "GTIN" "Barcode"))

/-- Outcome of the tier loop, instrumented with the list of queries that
were actually sent to the search collaborator (in order). -/
structure TQOut where
  matchedBy : String
  hit : Option Hit
  trace : List (List Char)
deriving DecidableEq

/-- The tier loop of `try_queries`: issue each query in order, accept the
first one whose hits contain a valid candidate, stop there.  `fetch` stands
for the external `serpapi` + `extract_hits` collaborator. -/
def run_tiers (fetch : List Char → List Hit) (d : Dict) :
    List (String × List Char) → TQOut
  | [] => ⟨"NO_MATCH", none, []⟩
  | (tag, q) :: rest =>
    match best_valid_hit d (fetch q) with
    | some h => ⟨tag, some h, [q]⟩
    | none =>
      let o := run_tiers fetch d rest
      ⟨o.matchedBy, o.hit, q :: o.trace⟩

/-- From `competitor_price_via_serpapi.py`, `try_queries` (lines 170-217),
with the query trace made explicit. -/
def try_queries (fetch : List Char → List Hit) (d : Dict) : TQOut :=
  run_tiers fetch d (tq_queries d)

/-! ### `find_offer` of `src/api/price_watch.py` (lines 81-143) -/

/-- Constant `MY_STORE_NAME = "R&A Cycles"`. -/
def MY_STORE_NAME : List Char := "R&A Cycles".toList

/-- One Google-Shopping result record as `find_offer` reads it
(`item.get("source","")`, `item.get("title","")`, `item.get("price","0")`). -/
structure SItem where
  source : List Char
  title : List Char
  price : List Char
deriving DecidableEq

/-- The offer record `find_offer` builds: title, cleaned price string,
source. -/
structure FOffer where
  title : List Char
  price : List Char
  source : List Char
deriving DecidableEq

/-- Model of the price cleaning, removing dollar signs and commas. -/
def fo_clean (p : List Char) : List Char :=
  (p.filter (· ≠ '$')).filter (· ≠ ',')

/-- The store check: wildcard mode accepts any source not containing the
home store's name; specific mode requires the store name as a substring. -/
def fo_store_ok (store : Option (List Char)) (it : SItem) : Bool :=
  match store with
  | none => !isSubList (lowerList MY_STORE_NAME) (lowerList it.source)
  | some s => isSubList (lowerList s) (lowerList it.source)

/-- The full hard gate of `find_offer`: store, brand substring in title,
MPN substring in title. -/
def fo_gate (store : Option (List Char)) (brand mpn : List Char) (it : SItem) : Bool :=
  fo_store_ok store it
    && isSubList (lowerList brand) (lowerList it.title)
    && isSubList (lowerList mpn) (lowerList it.title)

/-- The scan of `find_offer`: specific mode returns the first gated item
whose price parses; wildcard mode keeps the lowest parsed price seen so far
(Python's `lowest_price` starts at `inf`; the `none` accumulator plays that
role and the strict `<` keeps the earliest item on ties). -/
def find_offer_loop (store : Option (List Char)) (brand mpn : List Char) :
    List SItem → Option (FOffer × ℚ) → Option (FOffer × ℚ)
  | [], best => best
  | it :: rest, best =>
    if fo_gate store brand mpn it then
      match pyFloat (fo_clean it.price) with
      | none => find_offer_loop store brand mpn rest best
      | some p =>
        match store with
        | some _ => some (⟨it.title, fo_clean it.price, it.source⟩, p)
        | none =>
          let better := match best with
            | none => true
            | some (_, bp) => decide (p < bp)
          if better then
            find_offer_loop store brand mpn rest
              (some (⟨it.title, fo_clean it.price, it.source⟩, p))
          else find_offer_loop store brand mpn rest best
    else find_offer_loop store brand mpn rest best

/-- From `src/api/price_watch.py`, `find_offer` (lines 81-143): `None` when
brand or MPN is missing; otherwise the scan above, returning the offer. -/
def find_offer (results : List SItem) (store : Option (List Char))
    (brand mpn : List Char) : Option FOffer :=
  if brand.isEmpty || mpn.isEmpty then none
  else (find_offer_loop store brand mpn results none).map Prod.fst

/-! ### Batch main loop of `competitor_price_via_serpapi.py` (lines 220-263) -/

/-- The seven result columns the main loop appends. -/
def serpapi_extra_cols : List String :=
  ["Match_Source", "Match_URL", "Match_Price", "Match_By", "Price_Diff",
   "Status", "Last_Checked"]

/-- One iteration of `main`'s row loop (lines 226-255).  `resolve` stands
for the call to `try_queries`, which may raise (the `except` arm); `now` is
the `Last_Checked` timestamp text.  A raising resolution leaves the match
fields at their initial empty values, records `ERROR: <first 120 chars>` in
`Status`, and the loop goes on to the next row. -/
def main_row (resolve : Dict → Except (List Char) (String × Option Hit))
    (now : List Char) (row : Dict) : Dict :=
  let my_price := norm_price (.vstr (dgetOr row "My_Price" "Price"))
  let res :=
    match resolve row with
    | .error e =>
      ("NO_MATCH", "ERROR: ".toList ++ e.take 120,
        ([] : List Char), ([] : List Char), ([] : List Char), ([] : List Char))
    | .ok (mb, none) =>
      (mb, "NO_MATCH".toList, ([] : List Char), ([] : List Char),
        ([] : List Char), ([] : List Char))
    | .ok (mb, some h) =>
      let mp := match h.price with | some pv => formatQ2 pv | none => []
      let pd := match my_price, h.price with
        | some m, some pv => formatQ2 (m - pv)
        | _, _ => []
      (mb, "MATCH".toList, h.seller, h.link, mp, pd)
  match res with
  | (match_by, status, ms, mu, mp, price_diff) =>
    dset (dset (dset (dset (dset (dset (dset row
      "Match_Source" ms) "Match_URL" mu) "Match_Price" mp)
      "Match_By" match_by.toList) "Price_Diff" price_diff)
      "Status" status) "Last_Checked" now

/-- The whole batch loop: one enriched output row appended per input row. -/
def serpapi_main (resolve : Dict → Except (List Char) (String × Option Hit))
    (now : List Char) (rows : List Dict) : List Dict :=
  rows.map (main_row resolve now)

/-! ### Row processing of `competitor_price_scrape.py` (`process`, lines 413-475) -/

/-- An input row after `process` has read it (`My_Price` goes through
`money_to_float` at read time). -/
structure ScrapeRow where
  productName : List Char
  gtin : List Char
  mpn : List Char
  brand : List Char
  myPrice : Option ℚ
deriving DecidableEq

/-- The outcome of the per-domain search loop feeding one output row:
best domain, price, URL and tier tag (`NO_MATCH` defaults when none). -/
structure ScrapeOutcome where
  domain : Option (List Char)
  price : Option ℚ
  url : List Char
  tag : List Char
deriving DecidableEq

/-- The result cells `process` writes for one row. -/
structure ScrapeOut where
  matchSource : List Char
  matchUrl : List Char
  matchPrice : List Char
  matchBy : List Char
  priceDiff : Option ℚ
deriving DecidableEq

/-- From `competitor_price_scrape.py`, lines 460-475: the assembly of one
output row.  `Price_Diff = round(best_price - row.My_Price, 2)` when both
prices are known, else an empty cell (`none`). -/
def scrape_row (row : ScrapeRow) (res : ScrapeOutcome) : ScrapeOut :=
  { matchSource := if res.price.isSome then (res.domain.getD []) else "NO_MATCH".toList
    matchUrl := res.url
    matchPrice := match res.price with | some b => formatQ2 b | none => []
    matchBy := res.tag
    priceDiff :=
      match row.myPrice, res.price with
      | some m, some b => some (pyRound2 (b - m))
      | _, _ => none }

/-! ### JSON-LD extractor of `competitor_price_via_serpapi_webscrape.py`
(`extract_jsonld`, lines 71-101) -/

/- A parsed JSON value (the output of a successful `json.loads`).  The
mutual list/object spines keep all recursion structural. -/
mutual
inductive JVal where
  | jnull : JVal
  | jbool : Bool → JVal
  | jnum : ℚ → JVal
  | jstr : List Char → JVal
  | jarr : JArr → JVal
  | jobj : JObj → JVal
inductive JArr where
  | anil : JArr
  | acons : JVal → JArr → JArr
inductive JObj where
  | onil : JObj
  | ocons : List Char → JVal → JObj → JObj
end

/-- Python `dict.get(k)` on a parsed JSON object.  JSON `null` parses to
Python `None`, so a null value is indistinguishable from a missing key;
the lookup normalizes it to `none`. -/
def jGet : JObj → List Char → Option JVal
  | .onil, _ => none
  | .ocons k v t, key =>
    if k = key then (match v with | .jnull => none | w => some w)
    else jGet t key

/-- Python truthiness of a parsed JSON value. -/
def jTruthy : JVal → Bool
  | .jnull => false
  | .jbool b => b
  | .jnum q => decide (q ≠ 0)
  | .jstr s => !s.isEmpty
  | .jarr .anil => false
  | .jarr _ => true
  | .jobj .onil => false
  | .jobj _ => true

/-- Python `x or y` on optional JSON values (`offers.get("price") or
offers.get("lowPrice")`): the first truthy value, else the second. -/
def jOr (a b : Option JVal) : Option JVal :=
  match a with
  | some v => if jTruthy v then some v else b
  | none => b

/-- Python `str()` of a parsed JSON value — the fragment the extractor needs
(identifiers and prices are strings or numbers in every modelled input; the
repr of containers is never consumed by a claim). -/
def jStr : JVal → List Char
  | .jnull => "None".toList
  | .jbool true => "True".toList
  | .jbool false => "False".toList
  | .jnum q => (toString q.num).toList ++ (if q.den = 1 then [] else '/' :: (toString q.den).toList)
  | .jstr s => s
  | .jarr _ => []
  | .jobj _ => []

/-- Constant `GTIN_KEYS` (gtin, gtin13, gtin14, gtin12, gtin8, barcode)
(line 33; Python set iteration order is unspecified — no claim depends on
which key wins when several are present). -/
def GTIN_KEYS : List (List Char) :=
  ["gtin", "gtin13", "gtin14", "gtin12", "gtin8", "barcode"].map String.toList

/-- Constant `MPN_KEYS` (mpn, sku, model, partNumber, itemModel; line 34). -/
def MPN_KEYS : List (List Char) :=
  ["mpn", "sku", "model", "partNumber", "itemModel"].map String.toList

/-- Model of `next((str(cur.get(k)).strip() for k in KEYS if cur.get(k)), "")`. -/
def firstKeyVal (o : JObj) : List (List Char) → List Char
  | [] => []
  | k :: r =>
    match jGet o k with
    | some v => if jTruthy v then stripC (jStr v) else firstKeyVal o r
    | none => firstKeyVal o r

/-- Model of `t = cur.get("@type") or cur.get("type") or ""`, then
`",".join(map(str, t))` when the type is a list. -/
def jTypeList : JArr → List Char
  | .anil => []
  | .acons v .anil => jStr v
  | .acons v t => jStr v ++ ',' :: jTypeList t

/-- The type string of a node, as the extractor computes it. -/
def jTypeStr (o : JObj) : List Char :=
  match jOr (jGet o "@type".toList) (jGet o "type".toList) with
  | none => []
  | some (.jarr xs) => jTypeList xs
  | some v => jStr v

/-- Model of `"product" in str(t).lower()`. -/
def isProductNode (o : JObj) : Bool :=
  isSubList "product".toList (lowerList (jTypeStr o))

/-- One extracted record `{"gtin": …, "mpn": …, "price": …}`. -/
structure ERow where
  gtin : List Char
  mpn : List Char
  price : List Char
deriving DecidableEq

/-- The price read of a Product node (lines 91-95).  When `offers` is a
dict, `.get` is safe; when it is a NON-EMPTY LIST the code calls
`offers[0].get(...)` without checking that the head is a dict — on any
other head this is an uncaught `AttributeError`, modelled as `.error`. -/
def offersPrice (o : JObj) : Except (List Char) (Option JVal) :=
  match jGet o "offers".toList with
  | some (.jobj oo) => .ok (jOr (jGet oo "price".toList) (jGet oo "lowPrice".toList))
  | some (.jarr (.acons h _)) =>
    match h with
    | .jobj ho => .ok (jOr (jGet ho "price".toList) (jGet ho "lowPrice".toList))
    | _ => .error "AttributeError: offers[0] has no attribute get".toList
  | _ => .ok none

/-- The record appended for a Product node:
`{"gtin": gt, "mpn": mp, "price": str(price) if price is not None else ""}`. -/
def productRow (o : JObj) : Except (List Char) ERow := do
  let pv ← offersPrice o
  pure ⟨firstKeyVal o GTIN_KEYS, firstKeyVal o MPN_KEYS,
    match pv with | some v => jStr v | none => []⟩

/- The node walk of `extract_jsonld` (lines 81-100).  The Python code uses
an explicit stack (`stack.pop()` / `stack.append`); this structural
recursion visits the same nodes — only dict values that are dicts or lists
are descended into, list elements are all enqueued — and errs exactly when
some visited Product node has the bad `offers` shape.  (The stack visits
nodes in a different order, which permutes the output rows and is
irrelevant to every claim.) -/
mutual
def walkVal : JVal → Except (List Char) (List ERow)
  | .jobj o => do
    let here ← if isProductNode o then (do pure [← productRow o]) else pure []
    let rest ← walkObj o
    pure (here ++ rest)
  | .jarr xs => walkArr xs
  | _ => pure []
def walkArr : JArr → Except (List Char) (List ERow)
  | .anil => pure []
  | .acons v t => do pure ((← walkVal v) ++ (← walkArr t))
def walkObj : JObj → Except (List Char) (List ERow)
  | .onil => pure []
  | .ocons _ v t => do
    let here ← match v with
      | .jobj _ => walkVal v
      | .jarr _ => walkVal v
      | _ => pure []
    pure (here ++ (← walkObj t))
end

/-- From `competitor_price_via_serpapi_webscrape.py`, `extract_jsonld`
(lines 71-101), over the successfully parsed `json.loads` candidates of the
page's `ld+json` script blocks (a chunk that fails to parse is skipped by
the `except: continue`; a dict chunk also parses as `[dict]`, which only
duplicates its rows).  A scalar parse contributes no nodes. -/
def extract_jsonld : List JVal → Except (List Char) (List ERow)
  | [] => .ok []
  | v :: rest => do
    let rows ← match v with
      | .jobj _ => walkVal v
      | .jarr _ => walkVal v
      | _ => pure []
    let more ← extract_jsonld rest
    pure (rows ++ more)

/-- Python `int(x)` on a parsed JSON value: truncates a number toward
zero, parses an integer-only string (anything else, e.g. `"699.99"`,
raises — modelled `none`), maps booleans to 0/1, and raises on `None`,
lists and objects. -/
def pyInt : JVal → Option ℤ
  | .jnum q => some (q.num / (q.den : ℤ))
  | .jstr s =>
    (match stripC s with
     | '-' :: r =>
       if !r.isEmpty && r.all (·.isDigit) then some (-(digitsToNat r : ℤ)) else none
     | '+' :: r =>
       if !r.isEmpty && r.all (·.isDigit) then some ((digitsToNat r : ℤ)) else none
     | r =>
       if !r.isEmpty && r.all (·.isDigit) then some ((digitsToNat r : ℤ)) else none)
  | .jbool b => some (if b then 1 else 0)
  | _ => none

/-- Python `(v.get(k) or "").strip()`: a missing/falsy value gives the
empty string; a truthy string is stripped; `.strip()` on a truthy
non-string raises `AttributeError` (modelled `none`). -/
def pyOrEmptyStrip : Option JVal → Option (List Char)
  | none => some []
  | some v =>
    if jTruthy v then
      match v with
      | .jstr s => some (stripC s)
      | _ => none
    else some []

/-- The variant loop of `fetch_sportsbasement_shopify_js` (lines 120-126):
barcode and sku via `(v.get(k) or "").strip()`, the price via
`f"{int(price)/100:.2f}"` when present, the row appended per variant.  A
`none` result models an exception inside the loop (`v.get` on a non-dict
variant entry, `.strip()` on a non-string, `int()` on a non-integer),
which the enclosing `try/except` turns into an overall `[]`. -/
def shopify_variant_rows : JArr → Option (List ERow)
  | .anil => some []
  | .acons v t =>
    match v with
    | .jobj vo =>
      (pyOrEmptyStrip (jGet vo "barcode".toList)).bind (fun gt =>
        (pyOrEmptyStrip (jGet vo "sku".toList)).bind (fun mp =>
          (match jGet vo "price".toList with
           | none => some ([] : List Char)
           | some pv => (pyInt pv).map (fun n => formatQ2 ((n : ℚ) / 100))).bind
            (fun pr =>
              (shopify_variant_rows t).map (fun rest => ⟨gt, mp, pr⟩ :: rest))))
    | _ => none

/-- From the same file, `fetch_sportsbasement_shopify_js` (lines 112-129):
given whether the URL path contains `/products/` and the parsed `.js`
payload (`none` models a fetch or `json.loads` exception), build the
variant rows.  The whole body sits in a `try/except` that returns `[]`,
so the function is total by construction: a non-object payload, a missing
or non-list `variants` field, and any exception inside the loop all
collapse to `[]` (Python raises `TypeError`/`AttributeError` on those
shapes inside the same `try`). -/
def fetch_sportsbasement_shopify_js (isProductPath : Bool)
    (payload : Option JVal) : List ERow :=
  if !isProductPath then []
  else
    match payload with
    | some (.jobj o) =>
      match jGet o "variants".toList with
      | some (.jarr vs) => (shopify_variant_rows vs).getD []
      | _ => []
    | _ => []

/-! ### Gates as the spec words them (for comparison with the code) -/

/-- The identity gate exactly as the spec states it: brand token present in
the title AND (a normalized-MPN variant is a substring OR at least 2 of the
first 3 significant product-name keywords are present); with an empty
brand, a normalized MPN match alone passes.  This definition follows the
spec's words; `title_matches` above follows the code. -/
def spec_identity_gate (d : Dict) (title : List Char) : Bool :=
  if (gate_brand d).isEmpty then has_mpn_tok d title
  else isSubList (gate_brand d) (lowerList title)
    && (has_mpn_tok d title || decide (2 ≤ kwHitCount d title))

/-- The identity gate with the one amendment the code forces: at least 1 of
the first 3 significant keywords (not 2) suffices alongside the brand. -/
def amended_identity_gate (d : Dict) (title : List Char) : Bool :=
  if (gate_brand d).isEmpty then has_mpn_tok d title
  else isSubList (gate_brand d) (lowerList title)
    && (has_mpn_tok d title || decide (1 ≤ kwHitCount d title))

/-- The price-plausibility gate exactly as the claim states it: a candidate
is rejected when its price is below a quarter of the reference price and
below the absolute floor of 40 currency units.  This follows the spec's
words; `reasonable_price` above follows the code. -/
def spec_price_gate (refPrice : Option ℚ) (p : ℚ) : Bool :=
  match refPrice with
  | some r => !(decide (p < r / 4) && decide (p < 40))
  | none => true

/-- The plausibility gate with the amendment the code forces: a candidate
passes iff its price parsed, and either the row's own price is unknown or
below the 300 big-ticket threshold, or the candidate is at least half the
row's own price. -/
def amended_price_gate (d : Dict) (price : Option ℚ) : Bool :=
  match price with
  | none => false
  | some p =>
    match norm_price (.vstr (dgetOr d "My_Price" "Price")) with
    | none => true
    | some m => decide (m < 300) || decide (m / 2 ≤ p)

/-! ### Concrete inputs used by the closed instances and witnesses -/

/-- A small concrete row builder: an association list as a `Dict`. -/
def rowOf (kvs : List (String × String)) : Dict :=
  fun k => (kvs.find? (fun p => p.1 = k)).map (fun p => p.2.toList)

/-- The end-to-end scenario target of the spec (reference price 599.99). -/
def c1Row : Dict :=
  rowOf [("Product_Name", "Edge 1050"), ("Brand", "Garmin"),
         ("MPN", "010-02890-00"), ("My_Price", "599.99")]

/-- The matched offer of the scenario: price 549.99. -/
def c1Hit : Hit :=
  { link := "https://www.backcountry.com/garmin-edge-1050".toList
    title := "Garmin Edge 1050 GPS Computer 010-02890-00".toList
    seller := "Backcountry".toList
    price := some (54999 / 100) }

/-- A resolution oracle that matches the scenario row at the MPN tier. -/
def c1Resolve : Dict → Except (List Char) (String × Option Hit) :=
  fun _ => .ok ("MPN", some c1Hit)

/-- The scenario as `competitor_price_scrape.py` reads it. -/
def c1ScrapeRow : ScrapeRow :=
  { productName := "Edge 1050".toList, gtin := [],
    mpn := "010-02890-00".toList, brand := "Garmin".toList,
    myPrice := some (59999 / 100) }

/-- The scenario's per-domain outcome for the scrape variant. -/
def c1ScrapeOutcome : ScrapeOutcome :=
  { domain := some "www.backcountry.com".toList
    price := some (54999 / 100)
    url := "https://www.backcountry.com/garmin-edge-1050".toList
    tag := "mpn".toList }

/-- A target whose first-three significant keywords are `edge 9999
computer`, of which exactly one appears in the title below. -/
def c2Row : Dict :=
  rowOf [("Product_Name", "Edge 9999 Computer"), ("Brand", "Garmin"),
         ("MPN", "010-99999-00")]

/-- A title containing the brand and one (only) significant keyword, and no
MPN variant. -/
def c2Title : List Char := "Garmin Edge GPS Unit".toList

/-- A row with reference price 100 (below the big-ticket threshold). -/
def c4Row100 : Dict := rowOf [("My_Price", "100")]

/-- A row with reference price 1300. -/
def c4Row1300 : Dict := rowOf [("My_Price", "1300")]

/-- A target with both GTIN and MPN set, for the tier-order witness. -/
def c5Row : Dict :=
  rowOf [("Product_Name", "Edge 1050"), ("Brand", "Garmin"),
         ("MPN", "010-02890-00"), ("GTIN", "0753759305109"),
         ("My_Price", "599.99")]

/-- A fetch collaborator that answers only the GTIN-tier query, with a hit
that passes every gate. -/
def c5Fetch : List Char → List Hit :=
  fun q => if q = gtin_query c5Row then [c1Hit] else []

/-- Wildcard-scope demo items at 500, 420 and 610, all from stores other
than the home store, all carrying brand and MPN in the title. -/
def c6Item (src price : String) : SItem :=
  { source := src.toList
    title := "Garmin Edge 1050 GPS 010-02890-00".toList
    price := price.toList }

/-- The three-candidate result list of the spec's wildcard scenario. -/
def c6Items : List SItem :=
  [c6Item "Shop Alpha" "500.00", c6Item "Shop Beta" "420.00",
   c6Item "Shop Gamma" "610.00"]

/-- The wildcard scenario's brand. -/
def c6Brand : List Char := "Garmin".toList

/-- The wildcard scenario's MPN (the raw form, as `find_offer` uses it). -/
def c6Mpn : List Char := "010-02890-00".toList

/-- A JSON-LD Product whose `offers` field is the list `[0]`: well-formed
JSON that reaches `offers[0].get(...)` with a non-dict head. -/
def c7Bad : JVal :=
  .jobj (.ocons "@type".toList (.jstr "Product".toList)
    (.ocons "offers".toList (.jarr (.acons (.jnum 0) .anil)) .onil))

/-- A well-behaved JSON-LD Product with a dict `offers`. -/
def c7Good : JVal :=
  .jobj (.ocons "@type".toList (.jstr "Product".toList)
    (.ocons "mpn".toList (.jstr "010-02890-00".toList)
      (.ocons "offers".toList
        (.jobj (.ocons "price".toList (.jstr "549.99".toList) .onil)) .onil)))

/-- Two rows for the batch-continuation witness: the first will fail, the
second will match. -/
def c8RowA : Dict := rowOf [("Product_Name", "Alpha"), ("My_Price", "599.99")]

/-- The second batch row. -/
def c8RowB : Dict := rowOf [("Product_Name", "Beta"), ("My_Price", "599.99")]

/-- A resolver that raises on the first row and matches the second. -/
def c8Resolve : Dict → Except (List Char) (String × Option Hit) :=
  fun d =>
    if d "Product_Name" = some "Alpha".toList then
      .error "SerpAPI error 500: upstream".toList
    else .ok ("GTIN", some c1Hit)

/-- A fixed timestamp for the batch models. -/
def cNow : List Char := "2026-10-12 00:00:00 UTC".toList

/-! ## Helper lemmas -/

/-- Applying `Char.ofNat` to a valid scalar value keeps its numeric value. -/
theorem char_toNat_ofNat_valid (n : ℕ) (h : n.isValidChar) :
    (Char.ofNat n).toNat = n := by
  rw [Char.ofNat, dif_pos h]
  rfl

/-- ASCII upper-casing is idempotent. -/
theorem toUpper_toUpper (c : Char) :
    Char.toUpper (Char.toUpper c) = Char.toUpper c := by
  unfold Char.toUpper
  by_cases h : c.toNat ≥ 97 ∧ c.toNat ≤ 122
  · rw [if_pos h]
    have ht : (Char.ofNat (c.toNat - 32)).toNat = c.toNat - 32 :=
      char_toNat_ofNat_valid _ (Or.inl (by omega))
    rw [if_neg (by omega)]
  · rw [if_neg h, if_neg h]

/-- Upper-casing never introduces a stripped character. -/
theorem isMpnStrip_toUpper (c : Char) (h : isMpnStrip c = false) :
    isMpnStrip (Char.toUpper c) = false := by
  unfold Char.toUpper
  by_cases hr : c.toNat ≥ 97 ∧ c.toNat ≤ 122
  · rw [if_pos hr]
    have ht : (Char.ofNat (c.toNat - 32)).toNat = c.toNat - 32 :=
      char_toNat_ofNat_valid _ (Or.inl (by omega))
    unfold isMpnStrip
    simp only [ht, Bool.or_eq_false_iff, beq_eq_false_iff_ne, ne_eq]
    omega
  · rwa [if_neg hr]

/-- A filtered list is non-empty exactly when some element passes. -/
theorem kwcount_any (p : List Char → Bool) (l : List (List Char)) :
    decide (1 ≤ (l.filter p).length) = l.any p := by
  induction l with
  | nil => simp
  | cons a t ih =>
    by_cases h : p a
    · simp [h]
    · simp [h, ih]

/-- The keyword-hit count rephrased through `List.any`. -/
theorem kwHitCount_any (d : Dict) (t : List Char) :
    decide (1 ≤ kwHitCount d t)
      = (sigKeywords (gate_pname d)).any (fun x => isSubList x (lowerList t)) := by
  unfold kwHitCount
  exact kwcount_any _ _

/-- An empty product name yields no significant keywords. -/
theorem sig_any_empty (d : Dict) (t : List Char)
    (h : (gate_pname d).isEmpty = true) :
    (sigKeywords (gate_pname d)).any (fun x => isSubList x (lowerList t)) = false := by
  rw [List.isEmpty_iff.mp h]
  rfl

/-- Updating one column leaves every other column unchanged. -/
theorem dset_ne (d : Dict) (k0 : String) (v : List Char) (k : String)
    (h : ¬ k = k0) : dset d k0 v k = d k := by
  simp [dset, h]

/-- The `Price_Diff` cell a matched serpapi row records is
`f"{(my_price - pv):.2f}"` — the row's own price minus the offer price. -/
theorem main_row_price_diff (resolve : Dict → Except (List Char) (String × Option Hit))
    (now : List Char) (row : Dict) (mb : String) (h : Hit) (m pv : ℚ)
    (hres : resolve row = .ok (mb, some h))
    (hnp : norm_price (.vstr (dgetOr row "My_Price" "Price")) = some m)
    (hpv : h.price = some pv) :
    main_row resolve now row "Price_Diff" = some (formatQ2 (m - pv)) := by
  unfold main_row
  rw [hres]
  dsimp only
  rw [hnp, hpv]
  dsimp only
  rw [dset_ne _ _ _ _ (by decide), dset_ne _ _ _ _ (by decide)]
  simp [dset]

/-- Evaluation bridge: the parser on `"1299.00"`. -/
theorem pf_1299_00 : pyFloat "1299.00".toList = some 1299 := by
  have h : ((digitsToNat "1299".toList : ℚ)
      + (digitsToNat "00".toList : ℚ) / (10:ℚ) ^ ("00".toList.length)) = 1299 := by
    rw [show digitsToNat "1299".toList = 1299 from by decide,
        show digitsToNat "00".toList = 0 from by decide]
    norm_num
  exact congrArg some h

/-- Evaluation bridge: the parser on `"1299"`. -/
theorem pf_1299 : pyFloat "1299".toList = some 1299 := by
  have h : ((digitsToNat "1299".toList : ℚ)) = 1299 := by
    rw [show digitsToNat "1299".toList = 1299 from by decide]
    norm_num
  exact congrArg some h

/-- Evaluation bridge: the parser on `"599.99"`. -/
theorem pf_599_99 : pyFloat "599.99".toList = some (59999 / 100) := by
  have h : ((digitsToNat "599".toList : ℚ)
      + (digitsToNat "99".toList : ℚ) / (10:ℚ) ^ ("99".toList.length)) = 59999 / 100 := by
    rw [show digitsToNat "599".toList = 599 from by decide,
        show digitsToNat "99".toList = 99 from by decide]
    norm_num
  exact congrArg some h

/-- Evaluation bridge: the parser on `"100"`. -/
theorem pf_100 : pyFloat "100".toList = some 100 := by
  have h : ((digitsToNat "100".toList : ℚ)) = 100 := by
    rw [show digitsToNat "100".toList = 100 from by decide]
    norm_num
  exact congrArg some h

/-- Evaluation bridge: the parser on `"1300"`. -/
theorem pf_1300 : pyFloat "1300".toList = some 1300 := by
  have h : ((digitsToNat "1300".toList : ℚ)) = 1300 := by
    rw [show digitsToNat "1300".toList = 1300 from by decide]
    norm_num
  exact congrArg some h

/-- Evaluation bridge: the parser on `"500.00"`. -/
theorem pf_500_00 : pyFloat "500.00".toList = some 500 := by
  have h : ((digitsToNat "500".toList : ℚ)
      + (digitsToNat "00".toList : ℚ) / (10:ℚ) ^ ("00".toList.length)) = 500 := by
    rw [show digitsToNat "500".toList = 500 from by decide,
        show digitsToNat "00".toList = 0 from by decide]
    norm_num
  exact congrArg some h

/-- Evaluation bridge: the parser on `"420.00"`. -/
theorem pf_420_00 : pyFloat "420.00".toList = some 420 := by
  have h : ((digitsToNat "420".toList : ℚ)
      + (digitsToNat "00".toList : ℚ) / (10:ℚ) ^ ("00".toList.length)) = 420 := by
    rw [show digitsToNat "420".toList = 420 from by decide,
        show digitsToNat "00".toList = 0 from by decide]
    norm_num
  exact congrArg some h

/-- Evaluation bridge: the parser on `"610.00"`. -/
theorem pf_610_00 : pyFloat "610.00".toList = some 610 := by
  have h : ((digitsToNat "610".toList : ℚ)
      + (digitsToNat "00".toList : ℚ) / (10:ℚ) ^ ("00".toList.length)) = 610 := by
    rw [show digitsToNat "610".toList = 610 from by decide,
        show digitsToNat "00".toList = 0 from by decide]
    norm_num
  exact congrArg some h

/-- Python `round` at the integer 5000. -/
theorem pyRound_5000 : pyRound 5000 = 5000 := by
  unfold pyRound
  dsimp only
  rw [show (⌊(5000:ℚ)⌋ : ℤ) = 5000 from by norm_num]
  rw [show ((5000:ℚ) - ((5000:ℤ):ℚ)) = 0 from by norm_num]
  rw [if_pos (by norm_num)]

/-- Python `round` at the integer −5000. -/
theorem pyRound_neg5000 : pyRound (-5000) = -5000 := by
  unfold pyRound
  dsimp only
  rw [show (⌊(-5000:ℚ)⌋ : ℤ) = -5000 from by norm_num]
  rw [show ((-5000:ℚ) - ((-5000:ℤ):ℚ)) = 0 from by norm_num]
  rw [if_pos (by norm_num)]

/-- Two-decimal rendering of the value 50. -/
theorem fq2_50 : formatQ2 50 = "50.00".toList := by
  unfold formatQ2
  dsimp only
  rw [show ((50:ℚ) * 100) = 5000 from by norm_num, pyRound_5000]
  decide

/-- Invariant of the wildcard scan: any returned pair carries its own parsed
price, improves on the accumulator, and is a lower bound for every
gating-passed, price-parsing item of the list. -/
theorem fo_loop_spec (brand mpn : List Char) :
    ∀ (l : List SItem) (acc : Option (FOffer × ℚ)),
      (∀ o p, acc = some (o, p) → pyFloat o.price = some p) →
      ∀ o p, find_offer_loop none brand mpn l acc = some (o, p) →
        pyFloat o.price = some p
        ∧ (∀ o0 p0, acc = some (o0, p0) → p ≤ p0)
        ∧ (∀ it ∈ l, fo_gate none brand mpn it = true →
            ∀ q, pyFloat (fo_clean it.price) = some q → p ≤ q) := by
  intro l
  induction l with
  | nil =>
    intro acc hacc o p hres
    unfold find_offer_loop at hres
    refine ⟨hacc o p hres, ?_, by simp⟩
    intro o0 p0 h0
    rw [h0] at hres
    cases hres
    exact le_refl _
  | cons it rest ih =>
    intro acc hacc o p hres
    unfold find_offer_loop at hres
    by_cases hg : fo_gate none brand mpn it = true
    · rw [if_pos hg] at hres
      cases hpf : pyFloat (fo_clean it.price) with
      | none =>
        rw [hpf] at hres
        dsimp only at hres
        obtain ⟨h1, h2, h3⟩ := ih acc hacc o p hres
        refine ⟨h1, h2, ?_⟩
        intro it' hmem hg' q hq
        rcases List.mem_cons.mp hmem with rfl | hmem
        · rw [hq] at hpf; cases hpf
        · exact h3 it' hmem hg' q hq
      | some pq =>
        rw [hpf] at hres
        dsimp only at hres
        cases acc with
        | none =>
          rw [if_pos rfl] at hres
          obtain ⟨h1, h2, h3⟩ := ih (some (⟨it.title, fo_clean it.price, it.source⟩, pq))
            (fun o0 p0 h0 => by cases h0; exact hpf) o p hres
          have hple : p ≤ pq := h2 _ _ rfl
          refine ⟨h1, ?_, ?_⟩
          · intro o0 p0 h0
            cases h0
          · intro it' hmem hg' q hq
            rcases List.mem_cons.mp hmem with rfl | hmem
            · rw [hq] at hpf
              cases hpf
              exact hple
            · exact h3 it' hmem hg' q hq
        | some acc0 =>
          obtain ⟨o0, p0⟩ := acc0
          dsimp only at hres
          by_cases hlt : pq < p0
          · rw [if_pos (by simp [hlt])] at hres
            obtain ⟨h1, h2, h3⟩ := ih (some (⟨it.title, fo_clean it.price, it.source⟩, pq))
              (fun o1 p1 h1 => by cases h1; exact hpf) o p hres
            have hple : p ≤ pq := h2 _ _ rfl
            refine ⟨h1, ?_, ?_⟩
            · intro o1 p1 h1
              cases h1
              exact le_trans hple (le_of_lt hlt)
            · intro it' hmem hg' q hq
              rcases List.mem_cons.mp hmem with rfl | hmem
              · rw [hq] at hpf; cases hpf; exact hple
              · exact h3 it' hmem hg' q hq
          · rw [if_neg (by simp [hlt])] at hres
            obtain ⟨h1, h2, h3⟩ := ih (some (o0, p0)) hacc o p hres
            have hple : p ≤ p0 := h2 _ _ rfl
            refine ⟨h1, ?_, ?_⟩
            · intro o1 p1 h1
              cases h1
              exact hple
            · intro it' hmem hg' q hq
              rcases List.mem_cons.mp hmem with rfl | hmem
              · rw [hq] at hpf
                cases hpf
                exact le_trans hple (le_of_not_lt hlt)
              · exact h3 it' hmem hg' q hq
    · rw [if_neg hg] at hres
      obtain ⟨h1, h2, h3⟩ := ih acc hacc o p hres
      refine ⟨h1, h2, ?_⟩
      intro it' hmem hg' q hq
      rcases List.mem_cons.mp hmem with rfl | hmem
      · exact absurd hg' hg
      · exact h3 it' hmem hg' q hq

/-- The wildcard scan returns something as soon as one item passes the gate
with a parsed price (or the accumulator is already set). -/
theorem fo_loop_isSome (brand mpn : List Char) :
    ∀ (l : List SItem) (acc : Option (FOffer × ℚ)),
      ((∃ it ∈ l, fo_gate none brand mpn it = true
          ∧ (pyFloat (fo_clean it.price)).isSome = true) ∨ acc.isSome = true) →
      (find_offer_loop none brand mpn l acc).isSome = true := by
  intro l
  induction l with
  | nil =>
    intro acc h
    rcases h with ⟨it, hmem, _⟩ | h
    · cases hmem
    · unfold find_offer_loop
      exact h
  | cons it rest ih =>
    intro acc h
    unfold find_offer_loop
    by_cases hg : fo_gate none brand mpn it = true
    · rw [if_pos hg]
      cases hpf : pyFloat (fo_clean it.price) with
      | none =>
        dsimp only
        apply ih
        rcases h with ⟨it', hmem, hg', hq'⟩ | h
        · rcases List.mem_cons.mp hmem with rfl | hmem
          · rw [hpf] at hq'; cases hq'
          · exact Or.inl ⟨it', hmem, hg', hq'⟩
        · exact Or.inr h
      | some pq =>
        dsimp only
        cases acc with
        | none =>
          rw [if_pos rfl]
          apply ih
          exact Or.inr rfl
        | some acc0 =>
          obtain ⟨o0, p0⟩ := acc0
          dsimp only
          by_cases hlt : pq < p0
          · rw [if_pos (by simp [hlt])]
            apply ih
            exact Or.inr rfl
          · rw [if_neg (by simp [hlt])]
            apply ih
            exact Or.inr rfl
    · rw [if_neg hg]
      apply ih
      rcases h with ⟨it', hmem, hg', hq'⟩ | h
      · rcases List.mem_cons.mp hmem with rfl | hmem
        · exact absurd hg' hg
        · exact Or.inl ⟨it', hmem, hg', hq'⟩
      · exact Or.inr h

/-- The merchant-host gate of `competitor_price_via_serpapi.py` never
passes: `domain_of` always returns the empty string (unbound `urlparse`,
swallowed `NameError`) and the empty string is not an allowed domain. -/
theorem host_allowed_const_false (link : List Char) : host_allowed link = false :=
  rfl

/-- Consequently no hit is ever a valid candidate in that file. -/
theorem valid_candidate_false (d : Dict) (h : Hit) : valid_candidate d h = false := by
  unfold valid_candidate
  rw [host_allowed_const_false]
  rfl

/-- The candidate filter always empties the hit list. -/
theorem filter_valid_candidate_nil (d : Dict) (hits : List Hit) :
    hits.filter (valid_candidate d) = [] := by
  induction hits with
  | nil => rfl
  | cons a t ih => simp [List.filter_cons, valid_candidate_false, ih]

/-- So `best_valid_hit` never returns a hit, whatever the search returns. -/
theorem best_valid_hit_none (d : Dict) (hits : List Hit) :
    best_valid_hit d hits = none := by
  unfold best_valid_hit
  rw [filter_valid_candidate_nil]
  rfl

/-- And the tier loop never stops early: every query in the list is
issued, no tier matches, and the result is `NO_MATCH`. -/
theorem run_tiers_all_miss (fetch : List Char → List Hit) (d : Dict) :
    ∀ qs : List (String × List Char),
      run_tiers fetch d qs = ⟨"NO_MATCH", none, qs.map Prod.snd⟩ := by
  intro qs
  induction qs with
  | nil => rfl
  | cons a rest ih =>
    obtain ⟨tag, q⟩ := a
    unfold run_tiers
    rw [best_valid_hit_none]
    dsimp only
    rw [ih]
    rfl

/-! ## Claim theorems -/

/-- C10: `normalize_mpn` is idempotent — its output contains none of the
stripped characters and ASCII upper-casing an upper-cased string is a
no-op, so applying it twice equals applying it once. -/
theorem C10_normalize_mpn_idempotent (m : List Char) :
    normalize_mpn (normalize_mpn m) = normalize_mpn m := by
  unfold normalize_mpn
  rw [List.filter_map]
  have h1 : (m.filter (fun c => !isMpnStrip c)).filter
      ((fun c => !isMpnStrip c) ∘ Char.toUpper) = m.filter (fun c => !isMpnStrip c) := by
    apply List.filter_eq_self.mpr
    intro a ha
    have hmem := List.of_mem_filter ha
    simp only [Function.comp_apply, Bool.not_eq_true']
    exact isMpnStrip_toUpper a (by simpa using hmem)
  rw [h1, List.map_map]
  exact List.map_congr_left (fun a _ => toUpper_toUpper a)

/-- C2 counterexample: a concrete `(target, title)` pair the code accepts
(`title_matches = true`) although only ONE of the first three significant
keywords occurs in the title and no MPN variant does — the claim's gate
(`spec_identity_gate`, requiring at least two keywords) rejects it, so the
claimed if-and-only-if is false on the code. -/
theorem C2_identity_gate_counterexample :
    title_matches c2Row c2Title = true
    ∧ spec_identity_gate c2Row c2Title = false := by
  constructor
  · decide
  · decide

/-- C2 amended: the identity gate accepts iff the brand token is present in
the title AND (a normalized-MPN variant is a substring OR at least 1 — not
2 — of the first 3 significant keywords is present); with an empty brand a
normalized MPN match alone passes.  Both the serpapi `title_matches` and
the webscrape `title_ok` equal this amended gate on every input. -/
theorem C2_identity_gate_amended (d : Dict) (t : List Char) :
    title_matches d t = amended_identity_gate d t
      ∧ title_ok d t = amended_identity_gate d t := by
  unfold title_matches title_ok amended_identity_gate has_brand_tok has_kw_tok
  rw [kwHitCount_any]
  by_cases hb : (gate_brand d).isEmpty <;>
    by_cases hs : isSubList (gate_brand d) (lowerList t) <;>
      by_cases hm : has_mpn_tok d t <;>
        by_cases hpe : (gate_pname d).isEmpty <;>
          simp [hb, hs, hm, hpe, sig_any_empty d t]

/-- C4 counterexample: with reference price 100 and candidate price 10 the
claim's rule (below a quarter of the reference AND below the 40-unit floor)
rejects the candidate, but the code's `reasonable_price` accepts it — the
code's actual gate is `reference ≥ 300 ∧ price < reference/2`, not the
claimed quarter-plus-floor rule. -/
theorem C4_plausibility_counterexample :
    reasonable_price c4Row100 (some 10) = true
    ∧ spec_price_gate (norm_price (.vstr (dgetOr c4Row100 "My_Price" "Price"))) 10
        = false := by
  constructor
  · decide
  · rw [show norm_price (.vstr (dgetOr c4Row100 "My_Price" "Price")) = some 100 from pf_100]
    unfold spec_price_gate
    dsimp only
    rw [decide_eq_true (by norm_num : (10:ℚ) < 100 / 4),
        decide_eq_true (by norm_num : (10:ℚ) < 40)]
    rfl

/-- C4 amended: a candidate is rejected iff its price is missing, or the
target's reference price is known, at least the 300 big-ticket threshold,
and the candidate price is below half the reference; in particular the
claim's own instance (reference 1300, candidate 20) is rejected. -/
theorem C4_plausibility_amended :
    (∀ (d : Dict) (price : Option ℚ),
        reasonable_price d price = amended_price_gate d price)
    ∧ reasonable_price c4Row1300 (some 20) = false := by
  constructor
  · intro d price
    unfold reasonable_price amended_price_gate
    cases price with
    | none => rfl
    | some p =>
      dsimp only
      cases hm : norm_price (.vstr (dgetOr d "My_Price" "Price")) with
      | none => rfl
      | some m =>
        dsimp only
        by_cases h : m < BIG_TICKET_THRESHOLD
        · rw [if_pos h, decide_eq_true (by simpa [BIG_TICKET_THRESHOLD] using h)]
          rfl
        · rw [if_neg h]
          rw [show decide (m < 300) = false from
            decide_eq_false (by simpa [BIG_TICKET_THRESHOLD] using h), Bool.false_or]
          rw [show m * MIN_FRACTION_OF_MY_PRICE = m / 2 from by
            rw [MIN_FRACTION_OF_MY_PRICE]; ring]
  · unfold reasonable_price
    rw [show norm_price (.vstr (dgetOr c4Row1300 "My_Price" "Price")) = some 1300 from
      pf_1300]
    dsimp only
    rw [if_neg (by norm_num [BIG_TICKET_THRESHOLD])]
    rw [show decide ((20:ℚ) ≥ 1300 * MIN_FRACTION_OF_MY_PRICE) = false from
      decide_eq_false (by norm_num [MIN_FRACTION_OF_MY_PRICE])]

/-- C3: the three price parsers on the claim's inputs.  `norm_price` and
`price_to_float` map `"$1,299.00"`, `"1299.00"`, `"1,299"` to 1299 and all
malformed inputs to `None`, as claimed — but `money_to_float` maps
`"$1,299.00"` to `None`: its comma-stripping branch requires the string to
contain NO dot, so `Decimal("1,299.00")` raises and is swallowed, although
the function's own comment says it normalizes commas "like 1,299.00".
All parsers are total (never raise) by construction. -/
theorem C3_parse_money_eval :
    money_to_float (.vstr "$1,299.00".toList) = none
    ∧ norm_price (.vstr "$1,299.00".toList) = some 1299
    ∧ price_to_float (.vstr "$1,299.00".toList) = some 1299
    ∧ norm_price (.vstr "1299.00".toList) = some 1299
    ∧ money_to_float (.vstr "1299.00".toList) = some 1299
    ∧ price_to_float (.vstr "1299.00".toList) = some 1299
    ∧ norm_price (.vstr "1,299".toList) = some 1299
    ∧ money_to_float (.vstr "1,299".toList) = some 1299
    ∧ price_to_float (.vstr "1,299".toList) = some 1299
    ∧ norm_price (.vstr "Call for price".toList) = none
    ∧ money_to_float (.vstr "Call for price".toList) = none
    ∧ price_to_float (.vstr "Call for price".toList) = none
    ∧ norm_price (.vstr []) = none
    ∧ money_to_float (.vstr []) = none
    ∧ price_to_float (.vstr []) = none
    ∧ norm_price .vnone = none
    ∧ money_to_float .vnone = none
    ∧ price_to_float .vnone = none := by
  refine ⟨by decide, pf_1299_00, pf_1299_00, pf_1299_00, pf_1299_00, pf_1299_00,
    pf_1299, pf_1299, pf_1299, by decide, by decide, by decide, by decide,
    by decide, by decide, rfl, rfl, rfl⟩

/-- C7: the JSON-LD extractor is NOT exception-free: on the well-formed
JSON-LD Product `[... "offers": [0] ...]` it reaches `offers[0].get(...)`
on a non-dict and raises `AttributeError` (modelled `.error`); on ordinary
product mark-up and on empty input it returns a list as the contract says. -/
theorem C7_extractor_raises_eval :
    extract_jsonld [c7Bad]
      = .error "AttributeError: offers[0] has no attribute get".toList
    ∧ extract_jsonld [c7Good]
      = .ok [⟨[], "010-02890-00".toList, "549.99".toList⟩]
    ∧ extract_jsonld [] = .ok []
    ∧ fetch_sportsbasement_shopify_js false none = [] := by
  exact ⟨rfl, rfl, rfl, rfl⟩

/-- Wildcard scan, empty list: the accumulator is returned. -/
theorem fo_wild_nil (brand mpn : List Char) (acc : Option (FOffer × ℚ)) :
    find_offer_loop none brand mpn [] acc = acc := by
  unfold find_offer_loop
  rfl

/-- Wildcard scan, first take: a gated item with a parsed price fills an
empty accumulator. -/
theorem fo_wild_step_take (brand mpn : List Char) (it : SItem)
    (rest : List SItem) (p : ℚ)
    (hg : fo_gate none brand mpn it = true)
    (hp : pyFloat (fo_clean it.price) = some p) :
    find_offer_loop none brand mpn (it :: rest) none
      = find_offer_loop none brand mpn rest
          (some (⟨it.title, fo_clean it.price, it.source⟩, p)) := by
  conv_lhs => unfold find_offer_loop
  rw [if_pos hg, hp]
  dsimp only
  rw [if_pos rfl]

/-- Wildcard scan: a strictly cheaper gated item replaces the accumulator. -/
theorem fo_wild_step_better (brand mpn : List Char) (it : SItem)
    (rest : List SItem) (p : ℚ) (o0 : FOffer) (bp : ℚ)
    (hg : fo_gate none brand mpn it = true)
    (hp : pyFloat (fo_clean it.price) = some p)
    (hlt : p < bp) :
    find_offer_loop none brand mpn (it :: rest) (some (o0, bp))
      = find_offer_loop none brand mpn rest
          (some (⟨it.title, fo_clean it.price, it.source⟩, p)) := by
  conv_lhs => unfold find_offer_loop
  rw [if_pos hg, hp]
  dsimp only
  rw [if_pos (by simp [hlt])]

/-- Wildcard scan: a gated item at least as expensive keeps the accumulator. -/
theorem fo_wild_step_worse (brand mpn : List Char) (it : SItem)
    (rest : List SItem) (p : ℚ) (o0 : FOffer) (bp : ℚ)
    (hg : fo_gate none brand mpn it = true)
    (hp : pyFloat (fo_clean it.price) = some p)
    (hge : ¬ p < bp) :
    find_offer_loop none brand mpn (it :: rest) (some (o0, bp))
      = find_offer_loop none brand mpn rest (some (o0, bp)) := by
  conv_lhs => unfold find_offer_loop
  rw [if_pos hg, hp]
  dsimp only
  rw [if_neg (by simp [hge])]

/-- C1 counterexample: on the spec's own end-to-end scenario (reference
price 599.99, matched offer price 549.99) the serpapi main loop records
`Price_Diff = "50.00"` — `my_price - pv`, the reverse of the claimed
`offer.price - reference_price = -50.00`. -/
theorem C1_price_diff_counterexample :
    main_row c1Resolve cNow c1Row "Price_Diff" = some "50.00".toList
    ∧ ¬ main_row c1Resolve cNow c1Row "Price_Diff" = some "-50.00".toList := by
  have h := main_row_price_diff c1Resolve cNow c1Row "MPN" c1Hit
    (59999/100) (54999/100) rfl pf_599_99 rfl
  rw [show ((59999:ℚ)/100 - 54999/100) = 50 from by norm_num, fq2_50] at h
  exact ⟨h, by rw [h]; decide⟩

/-- C1 amended: the sign of the recorded price difference depends on the
variant.  `competitor_price_scrape.py` writes
`round(best_price - My_Price, 2)` = `offer.price - reference_price`
(−50.00 on the scenario), while `competitor_price_via_serpapi.py` writes
`f"{(my_price - pv):.2f}"` = `reference_price - offer.price`
(+50.00 on the same scenario). -/
theorem C1_price_diff_amended :
    (∀ (row : ScrapeRow) (res : ScrapeOutcome) (m b : ℚ),
        row.myPrice = some m → res.price = some b →
        (scrape_row row res).priceDiff = some (pyRound2 (b - m)))
    ∧ (∀ (resolve : Dict → Except (List Char) (String × Option Hit))
        (now : List Char) (row : Dict) (mb : String) (h : Hit) (m pv : ℚ),
        resolve row = .ok (mb, some h) →
        norm_price (.vstr (dgetOr row "My_Price" "Price")) = some m →
        h.price = some pv →
        main_row resolve now row "Price_Diff" = some (formatQ2 (m - pv)))
    ∧ (scrape_row c1ScrapeRow c1ScrapeOutcome).priceDiff = some (-50)
    ∧ main_row c1Resolve cNow c1Row "Price_Diff" = some "50.00".toList := by
  refine ⟨?_, ?_, ?_, ?_⟩
  · intro row res m b hm hb
    unfold scrape_row
    rw [hm, hb]
  · intro resolve now row mb h m pv hres hnp hpv
    exact main_row_price_diff resolve now row mb h m pv hres hnp hpv
  · show some (pyRound2 (54999/100 - 59999/100)) = some (-50)
    rw [show ((54999:ℚ)/100 - 59999/100) = -50 from by norm_num]
    unfold pyRound2
    rw [show ((-50:ℚ) * 100) = -5000 from by norm_num, pyRound_neg5000]
    norm_num
  · have h := main_row_price_diff c1Resolve cNow c1Row "MPN" c1Hit
      (59999/100) (54999/100) rfl pf_599_99 rfl
    rw [show ((59999:ℚ)/100 - 54999/100) = 50 from by norm_num, fq2_50] at h
    exact h

/-- C1 witness: the two amended directions applied at the scenario. -/
theorem C1_price_diff_witness :
    (scrape_row c1ScrapeRow c1ScrapeOutcome).priceDiff
        = some (pyRound2 (54999/100 - 59999/100))
    ∧ main_row c1Resolve cNow c1Row "Price_Diff"
        = some (formatQ2 (59999/100 - 54999/100)) := by
  refine ⟨C1_price_diff_amended.1 c1ScrapeRow c1ScrapeOutcome
    (59999/100) (54999/100) rfl rfl, ?_⟩
  exact C1_price_diff_amended.2.1 c1Resolve cNow c1Row "MPN" c1Hit
    (59999/100) (54999/100) rfl pf_599_99 rfl

/-- C5: in `competitor_price_via_serpapi.py` the claimed tier
short-circuit is unreachable: the file never imports `urlparse` (line 25
imports only `quote_plus`), so `domain_of` swallows a `NameError` and
returns the empty string for every URL, `host_allowed` is constantly
false, and `best_valid_hit` never accepts a candidate — `try_queries`
always issues EVERY tier's query (in the GTIN, Brand+MPN, MPN, Brand+Name
order of `tq_queries`) and reports `NO_MATCH`; `matched_by = GTIN` can
never occur and MPN-tier queries are always issued.  The concrete part
evaluates the code at the failing input: a target with GTIN and MPN set
and a fetch answering the GTIN query with a candidate that passes the
title and price gates and whose host a working `urlparse` would accept —
the candidate is still discarded, all six queries (the raw-MPN tier query
included) are issued, and the row reports `NO_MATCH`. -/
theorem C5_tier_shortcircuit_unreachable :
    (∀ link : List Char, host_allowed link = false)
    ∧ (∀ (d : Dict) (hits : List Hit), best_valid_hit d hits = none)
    ∧ (∀ (fetch : List Char → List Hit) (d : Dict),
        try_queries fetch d = ⟨"NO_MATCH", none, (tq_queries d).map Prod.snd⟩)
    ∧ title_matches c5Row c1Hit.title = true
    ∧ reasonable_price c5Row c1Hit.price = true
    ∧ ALLOWED_DOMAINS.contains (urlparse_netloc c1Hit.link) = true
    ∧ (try_queries c5Fetch c5Row).matchedBy = "NO_MATCH"
    ∧ (try_queries c5Fetch c5Row).hit = none
    ∧ (try_queries c5Fetch c5Row).trace.length = 6
    ∧ quotedQuery "010-02890-00".toList ∈ (try_queries c5Fetch c5Row).trace := by
  have hrp : reasonable_price c5Row (some (54999/100)) = true := by
    unfold reasonable_price
    rw [show norm_price (.vstr (dgetOr c5Row "My_Price" "Price"))
        = some (59999/100) from pf_599_99]
    dsimp only
    rw [if_neg (by norm_num [BIG_TICKET_THRESHOLD])]
    exact decide_eq_true (by norm_num [MIN_FRACTION_OF_MY_PRICE])
  refine ⟨host_allowed_const_false, best_valid_hit_none, ?_, by decide, hrp,
    by decide, by decide, by decide, by decide, by decide⟩
  intro fetch d
  unfold try_queries
  exact run_tiers_all_miss fetch d (tq_queries d)

/-- C6: under the wildcard scope, whenever some candidate passes the gate
with a parseable price, `find_offer` returns an offer whose (parsed) price
is a lower bound for every gating-passed candidate's price. -/
theorem C6_wildcard_lowest (results : List SItem) (brand mpn : List Char)
    (hb : brand.isEmpty = false) (hm : mpn.isEmpty = false)
    (hex : ∃ it ∈ results, fo_gate none brand mpn it = true
        ∧ (pyFloat (fo_clean it.price)).isSome = true) :
    ∃ o p, find_offer results none brand mpn = some o
      ∧ pyFloat o.price = some p
      ∧ ∀ it ∈ results, fo_gate none brand mpn it = true →
          ∀ q, pyFloat (fo_clean it.price) = some q → p ≤ q := by
  unfold find_offer
  rw [if_neg (by simp [hb, hm])]
  have hs := fo_loop_isSome brand mpn results none (Or.inl hex)
  obtain ⟨⟨o, p⟩, hres⟩ := Option.isSome_iff_exists.mp hs
  obtain ⟨h1, _, h3⟩ := fo_loop_spec brand mpn results none
    (fun _ _ h => by cases h) o p hres
  exact ⟨o, p, by rw [hres]; rfl, h1, h3⟩

/-- C6 witness: among gating-passed candidates at 500, 420, 610 the
wildcard scan returns the 420 offer (lower bound property from the claim
theorem, exact offer by evaluation). -/
theorem C6_wildcard_lowest_witness :
    (∃ o p, find_offer c6Items none c6Brand c6Mpn = some o
      ∧ pyFloat o.price = some p
      ∧ ∀ it ∈ c6Items, fo_gate none c6Brand c6Mpn it = true →
          ∀ q, pyFloat (fo_clean it.price) = some q → p ≤ q)
    ∧ find_offer c6Items none c6Brand c6Mpn
        = some ⟨(c6Item "Shop Beta" "420.00").title,
            fo_clean (c6Item "Shop Beta" "420.00").price,
            (c6Item "Shop Beta" "420.00").source⟩ := by
  constructor
  · exact C6_wildcard_lowest c6Items c6Brand c6Mpn (by decide) (by decide)
      ⟨c6Item "Shop Beta" "420.00", by decide, by decide, by decide⟩
  · show (find_offer_loop none c6Brand c6Mpn
      [c6Item "Shop Alpha" "500.00", c6Item "Shop Beta" "420.00",
        c6Item "Shop Gamma" "610.00"] none).map Prod.fst = _
    rw [fo_wild_step_take c6Brand c6Mpn (c6Item "Shop Alpha" "500.00") _ 500
      (by decide) pf_500_00]
    rw [fo_wild_step_better c6Brand c6Mpn (c6Item "Shop Beta" "420.00") _ 420 _ 500
      (by decide) pf_420_00 (by norm_num)]
    rw [fo_wild_step_worse c6Brand c6Mpn (c6Item "Shop Gamma" "610.00") _ 610 _ 420
      (by decide) pf_610_00 (by norm_num)]
    rw [fo_wild_nil]
    rfl

/-- C8: the batch loop writes one output row per input row, and a row whose
resolution raises is recorded with an `ERROR:` status while the loop keeps
producing the remaining rows (the map is pointwise, so no row's outcome
affects another's). -/
theorem C8_batch_continues
    (resolve : Dict → Except (List Char) (String × Option Hit))
    (now : List Char) (rows : List Dict) :
    (serpapi_main resolve now rows).length = rows.length
    ∧ ∀ i (hi : i < rows.length) (e : List Char),
        resolve rows[i] = .error e →
        ∃ hj : i < (serpapi_main resolve now rows).length,
          (serpapi_main resolve now rows)[i] "Status"
            = some ("ERROR: ".toList ++ e.take 120) := by
  refine ⟨by simp [serpapi_main], ?_⟩
  intro i hi e he
  have hj : i < (serpapi_main resolve now rows).length := by
    simpa [serpapi_main] using hi
  refine ⟨hj, ?_⟩
  have hmap : (serpapi_main resolve now rows)[i] = main_row resolve now rows[i] := by
    simp [serpapi_main]
  rw [hmap]
  unfold main_row
  rw [he]
  dsimp only
  rw [dset_ne _ _ _ _ (by decide)]
  simp [dset]

/-- C8 witness: a two-row batch whose first row's resolution raises — both
output rows exist and the first carries the `ERROR:` status. -/
theorem C8_batch_continues_witness :
    ∃ hj : 0 < (serpapi_main c8Resolve cNow [c8RowA, c8RowB]).length,
      (serpapi_main c8Resolve cNow [c8RowA, c8RowB])[0] "Status"
        = some ("ERROR: ".toList
            ++ ("SerpAPI error 500: upstream".toList).take 120) := by
  exact (C8_batch_continues c8Resolve cNow [c8RowA, c8RowB]).2 0 (by decide)
    "SerpAPI error 500: upstream".toList rfl

/-- C9: the enriched output row agrees with the input row on every column
other than the seven appended result columns — only
`Match_Source, Match_URL, Match_Price, Match_By, Price_Diff, Status,
Last_Checked` are written or overwritten. -/
theorem C9_frame_preserved
    (resolve : Dict → Except (List Char) (String × Option Hit))
    (now : List Char) (row : Dict) (k : String)
    (hk : k ∉ serpapi_extra_cols) :
    main_row resolve now row k = row k := by
  simp only [serpapi_extra_cols, List.mem_cons, List.mem_singleton, not_or] at hk
  obtain ⟨h1, h2, h3, h4, h5, h6, h7, _⟩ := hk
  unfold main_row
  cases hres : resolve row with
  | error e =>
    dsimp only
    rw [dset_ne _ _ _ _ h7, dset_ne _ _ _ _ h6, dset_ne _ _ _ _ h5,
      dset_ne _ _ _ _ h4, dset_ne _ _ _ _ h3, dset_ne _ _ _ _ h2,
      dset_ne _ _ _ _ h1]
  | ok r =>
    obtain ⟨mb, oh⟩ := r
    cases oh with
    | none =>
      dsimp only
      rw [dset_ne _ _ _ _ h7, dset_ne _ _ _ _ h6, dset_ne _ _ _ _ h5,
        dset_ne _ _ _ _ h4, dset_ne _ _ _ _ h3, dset_ne _ _ _ _ h2,
        dset_ne _ _ _ _ h1]
    | some hh =>
      dsimp only
      rw [dset_ne _ _ _ _ h7, dset_ne _ _ _ _ h6, dset_ne _ _ _ _ h5,
        dset_ne _ _ _ _ h4, dset_ne _ _ _ _ h3, dset_ne _ _ _ _ h2,
        dset_ne _ _ _ _ h1]

/-- C9 witness: an untouched input column (`Product_Name`) passes through
the enrichment unchanged. -/
theorem C9_frame_preserved_witness :
    main_row c8Resolve cNow c8RowB "Product_Name" = c8RowB "Product_Name"
    ∧ main_row c8Resolve cNow c8RowB "Product_Name" = some "Beta".toList := by
  have h := C9_frame_preserved c8Resolve cNow c8RowB "Product_Name" (by decide)
  exact ⟨h, by rw [h]; rfl⟩
